import Mathlib

/-!
Shallow embedding of the voice-translation pipeline in `app.py`.

The program is a linear pipeline: transcribe an uploaded audio clip,
detect the language of the transcript, translate it to a target language,
and synthesize speech from the translation.  Each stage is one blocking
call to an external service wrapped in a try/except that turns exceptions
into tagged sentinel strings.

External collaborators (the Groq Whisper endpoint, the langdetect
classifier, the GoogleTranslator endpoint, and the gTTS engine) are
modelled as oracles: an `Except String String` whose `error` constructor
carries the message of a raised exception and whose `ok` constructor
carries the value a normal call returns.  Side effects that the returned
data does not depend on (writing the uploaded bytes to a temp file,
`time.sleep(1)`) are recorded in trace fields rather than performed.
-/

/-- Outcome of one call to an external service: `.error e` models a raised
exception with message `e`, `.ok v` a normal return of `v`. -/
abbrev Remote := Except String String

/-- Python's `str.strip()`: drop whitespace characters from both ends. -/
def pyStrip (s : String) : String :=
  ⟨((s.data.dropWhile Char.isWhitespace).reverse.dropWhile Char.isWhitespace).reverse⟩

/-- Python's `str.lower()` on the ASCII-letter fragment the pipeline's
comparison needs: lowercase every character. -/
def pyLower (s : String) : String :=
  ⟨s.data.map Char.toLower⟩

/-- Python's `str.startswith(tag)`. -/
def pyStartsWith (s tag : String) : Bool :=
  tag.data.isPrefixOf s.data

/-- The four external collaborators of one pipeline invocation.
`transcribe` is the Whisper call on the uploaded clip; `detect` is
langdetect's `detect` on a text; `translate text target n` is the n-th
`GoogleTranslator(source="auto", target).translate(text)` call of a single
`translate_text` invocation (the retry is call number 1); `tts text lang`
is the gTTS synthesis returning the temp-file path it wrote. -/
structure Services where
  transcribe : Remote
  detect : String → Remote
  translate : String → String → Nat → Remote
  tts : String → String → Remote

/-- `transcribe_audio` from `app.py` (STEP 2): on success return the
transcript text stripped of surrounding whitespace, on any exception
return the tagged sentinel embedding the exception message. -/
def transcribe_audio (call : Remote) : String :=
  match call with
  | .ok t => pyStrip t
  | .error e => "[Transcription error] " ++ e

/-- `detect_language` from `app.py` (STEP 3): langdetect's answer, or the
literal `"unknown"` when the classifier raises. -/
def detect_language (call : String → Remote) (text : String) : String :=
  match call text with
  | .ok lang => lang
  | .error _ => "unknown"

/-- Instrumented outcome of `translate_text`: the returned string, the
number of remote translator calls made, and whether the `time.sleep(1)`
before the retry ran. -/
structure TranslateTrace where
  result : String
  remoteCalls : Nat
  slept : Bool
deriving Repr, DecidableEq

/-- `translate_text` from `app.py` (STEP 4), instrumented with call and
sleep counts.  Empty or whitespace-only input returns the empty-input
sentinel without any remote call; otherwise the remote translator is
called, and if its output is, after stripping and lowercasing, identical
to the input, the code sleeps one second and retries exactly once.  An
exception in either call yields the tagged sentinel. -/
def translate_text_traced (call : Nat → Remote) (text : String) : TranslateTrace :=
  if pyStrip text = "" then
    { result := "[Translation error] Empty input text", remoteCalls := 0, slept := false }
  else
    match call 0 with
    | .error e => { result := "[Translation error] " ++ e, remoteCalls := 1, slept := false }
    | .ok translated =>
      if pyLower (pyStrip translated) = pyLower (pyStrip text) then
        match call 1 with
        | .error e => { result := "[Translation error] " ++ e, remoteCalls := 2, slept := true }
        | .ok retried => { result := retried, remoteCalls := 2, slept := true }
      else
        { result := translated, remoteCalls := 1, slept := false }

/-- The string `translate_text` returns. -/
def translate_text (call : Nat → Remote) (text : String) : String :=
  (translate_text_traced call text).result

/-- `text_to_speech` from `app.py` (STEP 5): the path of the `.mp3` temp
file gTTS wrote, or the tagged sentinel on any exception. -/
def text_to_speech (call : Remote) : String :=
  match call with
  | .ok path => path
  | .error e => "[TTS error] " ++ e

/-- The target-language resolution of `pipeline_translate` (line 88-89 of
`app.py`): the hint `"auto"` resolves to `"ur"` when the detected language
is `"en"` and to `"en"` otherwise; any other hint stands as given. -/
def resolve_target (hint detected : String) : String :=
  if hint = "auto" then (if detected = "en" then "ur" else "en") else hint

/-- The transcript the pipeline works on. -/
def stage_transcript (svc : Services) : String :=
  transcribe_audio svc.transcribe

/-- The detected language of the transcript. -/
def stage_detected (svc : Services) : String :=
  detect_language svc.detect (stage_transcript svc)

/-- The resolved target language of one invocation. -/
def stage_target (svc : Services) (hint : String) : String :=
  resolve_target hint (stage_detected svc)

/-- The translated text of one invocation: `translate_text` when the
resolved target differs from the detected language, otherwise the
transcript passed through unchanged (line 91-93 of `app.py`). -/
def stage_translated (svc : Services) (hint : String) : String :=
  if stage_target svc hint ≠ stage_detected svc then
    translate_text (svc.translate (stage_transcript svc) (stage_target svc hint))
      (stage_transcript svc)
  else stage_transcript svc

/-- Instrumented outcome of `pipeline_translate`: the returned 4-tuple
(transcript, detected language, translated text, audio path — `none`
models Python's `None`) together with how many times each component ran
and the resolved target, when resolution was reached. -/
structure PipelineTrace where
  result : String × Option String × Option String × Option String
  transcriberCalls : Nat
  translatorCalls : Nat
  ttsCalls : Nat
  resolvedTarget : Option String
deriving Repr, DecidableEq

/-- `pipeline_translate` from `app.py` (STEP 6), instrumented.  Guard: no
audio gives an immediate error tuple.  Gate 1: a transcript carrying the
transcription sentinel tag short-circuits.  Then the target is resolved,
translation is skipped when it equals the detected language, a translation
sentinel short-circuits with a null path, a TTS sentinel is discarded and
replaced by a null path, and otherwise the full tuple is returned. -/
def pipeline_translate_traced (svc : Services) (audio_file : Option String)
    (target_lang_hint : String) : PipelineTrace :=
  match audio_file with
  | none =>
    { result := ("[Error] No audio input", none, none, none),
      transcriberCalls := 0, translatorCalls := 0, ttsCalls := 0, resolvedTarget := none }
  | some _ =>
    let transcribed := stage_transcript svc
    if pyStartsWith transcribed "[Transcription error]" then
      { result := (transcribed, none, none, none),
        transcriberCalls := 1, translatorCalls := 0, ttsCalls := 0, resolvedTarget := none }
    else
      let detected := stage_detected svc
      let target := stage_target svc target_lang_hint
      let translated := stage_translated svc target_lang_hint
      let tCalls : Nat := if target ≠ detected then 1 else 0
      if pyStartsWith translated "[Translation error]" then
        { result := (transcribed, some detected, some translated, none),
          transcriberCalls := 1, translatorCalls := tCalls, ttsCalls := 0,
          resolvedTarget := some target }
      else
        let audio_output := text_to_speech (svc.tts translated target)
        if pyStartsWith audio_output "[TTS error]" then
          { result := (transcribed, some detected, some translated, none),
            transcriberCalls := 1, translatorCalls := tCalls, ttsCalls := 1,
            resolvedTarget := some target }
        else
          { result := (transcribed, some detected, some translated, some audio_output),
            transcriberCalls := 1, translatorCalls := tCalls, ttsCalls := 1,
            resolvedTarget := some target }

/-- The 4-tuple `pipeline_translate` returns. -/
def pipeline_translate (svc : Services) (audio_file : Option String)
    (target_lang_hint : String) : String × Option String × Option String × Option String :=
  (pipeline_translate_traced svc audio_file target_lang_hint).result

/-! ## General lemmas about the embedding -/

/-- A tagged sentinel starts with its own tag. -/
theorem pyStartsWith_append (tag e : String) : pyStartsWith (tag ++ e) tag = true := by
  simp [pyStartsWith, String.data_append, List.isPrefixOf_iff_prefix]

/-- After the transcription gate passes, the trace records the resolved
target of the invocation. -/
theorem resolvedTarget_of_transcribed (svc : Services) (a hint : String)
    (hT : pyStartsWith (stage_transcript svc) "[Transcription error]" = false) :
    (pipeline_translate_traced svc (some a) hint).resolvedTarget =
      some (stage_target svc hint) := by
  simp only [pipeline_translate_traced, hT]
  split
  · simp_all
  · split
    · rfl
    · split <;> rfl

/-! ## Claim theorems -/

/-- C4: for every input text that is empty or whitespace-only,
`translate_text` returns the empty-input sentinel immediately, with zero
calls to the remote translation service. -/
theorem translate_text_empty_input (call : Nat → Remote) (text : String)
    (h : pyStrip text = "") :
    translate_text call text = "[Translation error] Empty input text" ∧
      (translate_text_traced call text).remoteCalls = 0 := by
  constructor <;> simp [translate_text, translate_text_traced, h]

/-- Witness for C4 at the whitespace-only input `"  "`. -/
theorem translate_text_empty_input_witness :
    translate_text (fun _ => Except.ok "bonjour") "  " =
      "[Translation error] Empty input text" ∧
      (translate_text_traced (fun _ => Except.ok "bonjour") "  ").remoteCalls = 0 :=
  translate_text_empty_input (fun _ => Except.ok "bonjour") "  " (by decide)

/-- A service bundle where every remote call succeeds: transcript
`"hello"`, detected language `"en"`, translation `"bonjour"`, synthesis
path `"out.mp3"`. -/
def svcOk : Services where
  transcribe := Except.ok "hello"
  detect := fun _ => Except.ok "en"
  translate := fun _ _ _ => Except.ok "bonjour"
  tts := fun _ _ => Except.ok "out.mp3"

/-- C1: with the target-language hint `"auto"`, the resolved target is
`"ur"` when the detected language is `"en"`, and `"en"` for every other
detected language, `"unknown"` included. -/
theorem pipeline_auto_target_resolution (svc : Services) (a : String)
    (hT : pyStartsWith (stage_transcript svc) "[Transcription error]" = false) :
    (stage_detected svc = "en" →
        (pipeline_translate_traced svc (some a) "auto").resolvedTarget = some "ur") ∧
      (stage_detected svc ≠ "en" →
        (pipeline_translate_traced svc (some a) "auto").resolvedTarget = some "en") := by
  constructor <;> intro h <;>
    rw [resolvedTarget_of_transcribed svc a "auto" hT] <;>
    simp [stage_target, resolve_target, h]

/-- Witness for C1: detected `"en"` resolves the hint `"auto"` to `"ur"`. -/
theorem pipeline_auto_target_resolution_witness :
    pyStartsWith (stage_transcript svcOk) "[Transcription error]" = false ∧
      ((stage_detected svcOk = "en" →
          (pipeline_translate_traced svcOk (some "clip") "auto").resolvedTarget = some "ur") ∧
        (stage_detected svcOk ≠ "en" →
          (pipeline_translate_traced svcOk (some "clip") "auto").resolvedTarget = some "en")) :=
  ⟨by decide, pipeline_auto_target_resolution svcOk "clip" (by decide)⟩

/-- C2: on non-empty input whose first translation comes back, after
stripping and lowercasing, identical to the input, `translate_text` sleeps
and retries exactly once; and whenever it makes no retry the returned text
differs from the input, so text returned equal to the input implies the
one retry happened. -/
theorem translate_text_stability_guard (call : Nat → Remote) (text t1 t2 : String)
    (hne : pyStrip text ≠ "") (h0 : call 0 = Except.ok t1) (h1 : call 1 = Except.ok t2) :
    (translate_text call text ≠ text ∨
        ((translate_text_traced call text).remoteCalls = 2 ∧
          (translate_text_traced call text).slept = true)) ∧
      (pyLower (pyStrip t1) = pyLower (pyStrip text) →
        (translate_text_traced call text).remoteCalls = 2 ∧
          (translate_text_traced call text).slept = true) := by
  by_cases hg : pyLower (pyStrip t1) = pyLower (pyStrip text)
  · refine ⟨Or.inr ?_, fun _ => ?_⟩ <;>
      simp [translate_text_traced, hne, h0, h1, hg]
  · refine ⟨Or.inl ?_, fun h => absurd h hg⟩
    have hres : translate_text call text = t1 := by
      simp [translate_text, translate_text_traced, hne, h0, hg]
    rw [hres]
    intro hEq
    exact hg (by rw [hEq])

/-- Witness for C2: input `"hello"` with a stable remote answer
`"hello"`, so the guard retries once. -/
theorem translate_text_stability_guard_witness :
    (pyStrip "hello" ≠ "" ∧
        (fun _ : Nat => Except.ok (ε := String) "hello") 0 = Except.ok "hello" ∧
        (fun _ : Nat => Except.ok (ε := String) "hello") 1 = Except.ok "hello") ∧
      ((translate_text (fun _ => Except.ok "hello") "hello" ≠ "hello" ∨
          ((translate_text_traced (fun _ => Except.ok "hello") "hello").remoteCalls = 2 ∧
            (translate_text_traced (fun _ => Except.ok "hello") "hello").slept = true)) ∧
        (pyLower (pyStrip "hello") = pyLower (pyStrip "hello") →
          (translate_text_traced (fun _ => Except.ok "hello") "hello").remoteCalls = 2 ∧
            (translate_text_traced (fun _ => Except.ok "hello") "hello").slept = true)) :=
  ⟨⟨by decide, rfl, rfl⟩,
    translate_text_stability_guard (fun _ => Except.ok "hello") "hello" "hello" "hello"
      (by decide) rfl rfl⟩

/-- C3: when the resolved target equals the detected language the
orchestrator makes no call to the Translator and the translated-text field
of the result is the transcript unchanged. -/
theorem pipeline_translation_skip (svc : Services) (a hint : String)
    (hT : pyStartsWith (stage_transcript svc) "[Transcription error]" = false)
    (hEq : stage_target svc hint = stage_detected svc) :
    (pipeline_translate_traced svc (some a) hint).translatorCalls = 0 ∧
      (pipeline_translate svc (some a) hint).2.2.1 = some (stage_transcript svc) := by
  have hskip : stage_translated svc hint = stage_transcript svc := by
    simp [stage_translated, hEq]
  constructor
  · simp only [pipeline_translate_traced, hT]
    split
    · simp_all
    · split
      · simp [hEq]
      · split <;> simp [hEq]
  · simp only [pipeline_translate, pipeline_translate_traced, hT]
    split
    · simp_all
    · split
      · simp [hskip]
      · split <;> simp [hskip]

/-- Witness for C3: explicit hint `"en"` with detected language `"en"`. -/
theorem pipeline_translation_skip_witness :
    (pyStartsWith (stage_transcript svcOk) "[Transcription error]" = false ∧
        stage_target svcOk "en" = stage_detected svcOk) ∧
      ((pipeline_translate_traced svcOk (some "clip") "en").translatorCalls = 0 ∧
        (pipeline_translate svcOk (some "clip") "en").2.2.1 = some (stage_transcript svcOk)) :=
  ⟨⟨by decide, by decide⟩, pipeline_translation_skip svcOk "clip" "en" (by decide) (by decide)⟩

/-- C7: with no input audio the orchestrator immediately returns the error
tuple whose first element is the error message and whose remaining three
elements are null, and no pipeline stage runs. -/
theorem pipeline_no_audio_guard (svc : Services) (hint : String) :
    pipeline_translate svc none hint = ("[Error] No audio input", none, none, none) ∧
      (pipeline_translate_traced svc none hint).transcriberCalls = 0 ∧
      (pipeline_translate_traced svc none hint).translatorCalls = 0 ∧
      (pipeline_translate_traced svc none hint).ttsCalls = 0 :=
  ⟨rfl, rfl, rfl, rfl⟩

/-- C8: on success the Transcriber returns the transcript stripped of
leading and trailing whitespace, and on any exception it returns the
sentinel string that embeds the exception's message, never propagating
the exception itself. -/
theorem transcribe_audio_contract (t e : String) :
    transcribe_audio (Except.ok t) = pyStrip t ∧
      transcribe_audio (Except.error e) = "[Transcription error] " ++ e :=
  ⟨rfl, rfl⟩

/-- A prefix of a string is a prefix of any extension of it. -/
theorem pyStartsWith_append_of (s e tag : String) (h : pyStartsWith s tag = true) :
    pyStartsWith (s ++ e) tag = true := by
  simp only [pyStartsWith, String.data_append, List.isPrefixOf_iff_prefix] at h ⊢
  exact h.trans (List.prefix_append _ _)

/-- C5: whenever the transcript carries the transcription-error sentinel
tag, the orchestrator returns it as the first element unmodified and null
for the other three elements. -/
theorem pipeline_transcription_failure (svc : Services) (a hint : String)
    (hT : pyStartsWith (stage_transcript svc) "[Transcription error]" = true) :
    pipeline_translate svc (some a) hint = (stage_transcript svc, none, none, none) := by
  simp [pipeline_translate, pipeline_translate_traced, hT]

/-- Witness for C5: a transcription exception with message `"boom"`. -/
theorem pipeline_transcription_failure_witness :
    pipeline_translate
        { transcribe := Except.error "boom", detect := fun _ => Except.ok "en",
          translate := fun _ _ _ => Except.ok "x", tts := fun _ _ => Except.ok "p" }
        (some "clip") "auto" =
      ("[Transcription error] boom", none, none, none) :=
  pipeline_transcription_failure
    { transcribe := Except.error "boom", detect := fun _ => Except.ok "en",
      translate := fun _ _ _ => Except.ok "x", tts := fun _ _ => Except.ok "p" }
    "clip" "auto" (by decide)

/-- A service bundle whose synthesis stage raises: transcript `"hello"`,
detected `"en"`, translation `"bonjour"`, TTS exception `"no voice"`. -/
def svcTtsFail : Services where
  transcribe := Except.ok "hello"
  detect := fun _ => Except.ok "en"
  translate := fun _ _ _ => Except.ok "bonjour"
  tts := fun _ _ => Except.error "no voice"

/-- C6: when speech synthesis raises, the orchestrator returns exactly the
pre-synthesis data — transcript, detected language and translated text
intact — with a null audio path; the right-hand side is built only from
stages that do not depend on `svc.tts`, so the synthesis error text is
discarded, never surfaced in the tuple. -/
theorem pipeline_synthesis_failure (svc : Services) (a hint e : String)
    (hT : pyStartsWith (stage_transcript svc) "[Transcription error]" = false)
    (hTr : pyStartsWith (stage_translated svc hint) "[Translation error]" = false)
    (hTTS : svc.tts (stage_translated svc hint) (stage_target svc hint) = Except.error e) :
    pipeline_translate svc (some a) hint =
      (stage_transcript svc, some (stage_detected svc),
        some (stage_translated svc hint), none) := by
  have hout : text_to_speech (svc.tts (stage_translated svc hint) (stage_target svc hint)) =
      "[TTS error] " ++ e := by rw [hTTS]; rfl
  have hs : pyStartsWith
      (text_to_speech (svc.tts (stage_translated svc hint) (stage_target svc hint)))
      "[TTS error]" = true := by
    rw [hout]
    exact pyStartsWith_append_of "[TTS error] " e "[TTS error]" (by decide)
  simp [pipeline_translate, pipeline_translate_traced, hT, hTr, hs]

/-- Witness for C6: translation `"bonjour"` reaches a TTS stage that
raises `"no voice"`. -/
theorem pipeline_synthesis_failure_witness :
    (pyStartsWith (stage_transcript svcTtsFail) "[Transcription error]" = false ∧
        pyStartsWith (stage_translated svcTtsFail "auto") "[Translation error]" = false ∧
        svcTtsFail.tts (stage_translated svcTtsFail "auto") (stage_target svcTtsFail "auto") =
          Except.error "no voice") ∧
      pipeline_translate svcTtsFail (some "clip") "auto" =
        (stage_transcript svcTtsFail, some (stage_detected svcTtsFail),
          some (stage_translated svcTtsFail "auto"), none) :=
  ⟨⟨by decide, by decide, rfl⟩,
    pipeline_synthesis_failure svcTtsFail "clip" "auto" "no voice" (by decide) (by decide) rfl⟩

/-- C9: whenever the orchestrator returns a non-null audio path, the
transcript does not carry the transcription sentinel tag, the translated
text is present and does not carry the translation sentinel tag, and the
path does not carry the TTS sentinel tag. -/
theorem pipeline_success_invariant (svc : Services) (audio : Option String) (hint p : String)
    (h : (pipeline_translate svc audio hint).2.2.2 = some p) :
    pyStartsWith (pipeline_translate svc audio hint).1 "[Transcription error]" = false ∧
      (∃ tr, (pipeline_translate svc audio hint).2.2.1 = some tr ∧
        pyStartsWith tr "[Translation error]" = false) ∧
      pyStartsWith p "[TTS error]" = false := by
  cases audio with
  | none => simp [pipeline_translate, pipeline_translate_traced] at h
  | some a =>
    by_cases h1 : pyStartsWith (stage_transcript svc) "[Transcription error]" = true
    · simp [pipeline_translate, pipeline_translate_traced, h1] at h
    · have h1' : pyStartsWith (stage_transcript svc) "[Transcription error]" = false := by
        simpa using h1
      by_cases h2 : pyStartsWith (stage_translated svc hint) "[Translation error]" = true
      · simp [pipeline_translate, pipeline_translate_traced, h1', h2] at h
      · have h2' : pyStartsWith (stage_translated svc hint) "[Translation error]" = false := by
          simpa using h2
        by_cases h3 : pyStartsWith
            (text_to_speech (svc.tts (stage_translated svc hint) (stage_target svc hint)))
            "[TTS error]" = true
        · simp [pipeline_translate, pipeline_translate_traced, h1', h2', h3] at h
        · have h3' : pyStartsWith
              (text_to_speech (svc.tts (stage_translated svc hint) (stage_target svc hint)))
              "[TTS error]" = false := by simpa using h3
          have hres : pipeline_translate svc (some a) hint =
              (stage_transcript svc, some (stage_detected svc),
                some (stage_translated svc hint),
                some (text_to_speech
                  (svc.tts (stage_translated svc hint) (stage_target svc hint)))) := by
            simp [pipeline_translate, pipeline_translate_traced, h1', h2', h3']
          rw [hres] at h ⊢
          simp only [Option.some.injEq] at h
          exact ⟨h1', ⟨stage_translated svc hint, rfl, h2'⟩, h ▸ h3'⟩

/-- Witness for C9 at an all-success invocation, whose audio path is
`"out.mp3"`. -/
theorem pipeline_success_invariant_witness :
    (pipeline_translate svcOk (some "clip") "auto").2.2.2 = some "out.mp3" ∧
      (pyStartsWith (pipeline_translate svcOk (some "clip") "auto").1
          "[Transcription error]" = false ∧
        (∃ tr, (pipeline_translate svcOk (some "clip") "auto").2.2.1 = some tr ∧
          pyStartsWith tr "[Translation error]" = false) ∧
        pyStartsWith "out.mp3" "[TTS error]" = false) :=
  ⟨by decide, pipeline_success_invariant svcOk (some "clip") "auto" "out.mp3" (by decide)⟩

/-- A service bundle whose transcript is whitespace-only and whose
language detector raises on the empty string, as langdetect does. -/
def svcBlank : Services where
  transcribe := Except.ok "   "
  detect := fun _ => Except.error "No features in text."
  translate := fun _ _ _ => Except.ok "x"
  tts := fun _ _ => Except.ok "p"

/-- C10: a successful transcription that strips to the empty string,
under the hint `"auto"` and a detector that raises on the empty string,
makes the orchestrator return detected language `"unknown"`, the
empty-input sentinel `"[Translation error] Empty input text"` as the
translated text, and a null audio path — the sentinel's tag makes the
orchestrator short-circuit exactly as on a remote translation failure,
so the TTS stage never runs. -/
theorem pipeline_whitespace_transcript_auto (svc : Services) (a t msg : String)
    (hok : svc.transcribe = Except.ok t) (hws : pyStrip t = "")
    (hdet : svc.detect "" = Except.error msg) :
    pipeline_translate svc (some a) "auto" =
        ("", some "unknown", some "[Translation error] Empty input text", none) ∧
      (pipeline_translate_traced svc (some a) "auto").ttsCalls = 0 := by
  have htr : stage_transcript svc = "" := by
    simp [stage_transcript, transcribe_audio, hok, hws]
  have hdetd : stage_detected svc = "unknown" := by
    simp [stage_detected, detect_language, htr, hdet]
  have htgt : stage_target svc "auto" = "en" := by
    simp [stage_target, resolve_target, hdetd]
  have hne : ("en" : String) ≠ "unknown" := by decide
  have h0 : pyStrip "" = "" := rfl
  have htrans : stage_translated svc "auto" = "[Translation error] Empty input text" := by
    simp only [stage_translated, htgt, hdetd, htr]
    simp [hne, translate_text, translate_text_traced, h0]
  have e1 : pyStartsWith "" "[Transcription error]" = false := by decide
  have e2 : pyStartsWith "[Translation error] Empty input text" "[Translation error]" = true := by
    decide
  constructor
  · simp [pipeline_translate, pipeline_translate_traced, htr, hdetd, htrans, e1, e2]
  · simp [pipeline_translate_traced, htr, hdetd, htrans, e1, e2]

/-- Witness for C10: whitespace transcript `"   "` and a detector raising
`"No features in text."` on the empty string. -/
theorem pipeline_whitespace_transcript_auto_witness :
    (svcBlank.transcribe = Except.ok "   " ∧ pyStrip "   " = "" ∧
        svcBlank.detect "" = Except.error "No features in text.") ∧
      (pipeline_translate svcBlank (some "clip") "auto" =
          ("", some "unknown", some "[Translation error] Empty input text", none) ∧
        (pipeline_translate_traced svcBlank (some "clip") "auto").ttsCalls = 0) :=
  ⟨⟨rfl, by decide, rfl⟩,
    pipeline_whitespace_transcript_auto svcBlank "clip" "   " "No features in text."
      rfl (by decide) rfl⟩
